import Mathlib

/-!
Verification development for the nekro-plugin-sec-run repository
(shell-command-to-image pipeline).

The repository has two near-duplicate pipeline variants:

* `src/__init__.py` — the mounted plugin: `_contains_forbidden_pattern`,
  `_run_shell_command`, `_generate_image_data_url`, `run_command_to_pict`.
* `src/utils/helper.py` — a helper-module variant:
  `execute_command_and_generate_image`, `_create_command_output_image`,
  `_create_error_image`, `_create_simple_error_image`.

Python strings are embedded as `List Char` (`Str`).  External effects
(the OS process, the PIL raster library, the filesystem) are passed in as
explicit parameters: a `ProcBehavior` oracle describing what the spawned
process does, and encoder functions describing what the raster library
returns.  Machine-level byte streams are `List Nat` with values below 256.
-/

set_option maxRecDepth 8000

namespace SecRun

/-- Python strings are modelled as lists of characters. -/
abbrev Str := List Char

/-- Embeds Python `str.lower()` (ASCII case folding; the source commands and
patterns exercised here are ASCII). -/
def pyLower (s : Str) : Str := s.map Char.toLower

/-- Characters stripped by Python `str.strip()` / `str.rstrip()` with no
arguments (ASCII whitespace). -/
def pyIsSpace (c : Char) : Bool :=
  c = ' ' || c = '\t' || c = '\n' || c = '\r' || c = Char.ofNat 11 || c = Char.ofNat 12

/-- Embeds Python `str.lstrip()`. -/
def pyLstrip (s : Str) : Str := s.dropWhile pyIsSpace

/-- Embeds Python `str.rstrip()`. -/
def pyRstrip (s : Str) : Str := ((s.reverse).dropWhile pyIsSpace).reverse

/-- Embeds Python `str.strip()`. -/
def pyStrip (s : Str) : Str := pyRstrip (pyLstrip s)

/-- Embeds the Python substring test `needle in hay`. -/
def containsSub (needle hay : Str) : Bool := decide (needle <:+: hay)

/-- Embeds `_contains_forbidden_pattern` (src/__init__.py lines 89-102):
`lowered = command.lower()`; `any(pattern.lower() in lowered for pattern in patterns)`. -/
def contains_forbidden_pattern (command : Str) (patterns : List Str) : Bool :=
  let lowered := pyLower command
  patterns.any (fun pattern => containsSub (pyLower pattern) lowered)

/-- Embeds the inline forbidden-pattern loop of
`execute_command_and_generate_image` (src/utils/helper.py lines 42-48):
`command_lower = command.lower().strip()`; the first pattern with
`pattern in command_lower` is returned (it is interpolated into the
rejection message).  Note the pattern itself is NOT lower-cased here,
and the command is stripped. -/
def helper_forbidden_scan (command : Str) (patterns : List Str) : Option Str :=
  let command_lower := pyStrip (pyLower command)
  patterns.find? (fun pattern => containsSub pattern command_lower)

/-- Embeds the default `FORBIDDEN_PATTERNS` of `SecRunConfig`
(src/__init__.py lines 53-71). -/
def defaultForbiddenPatterns : List Str :=
  ["rm ", "sudo ", "chmod ", "chown ", "mkfs", "fdisk", "dd if=", "kill ",
   "killall ", "reboot", "shutdown", "passwd ", "su ", "mount ", "umount ",
   "format"].map String.data

/-- Embeds `SecRunConfig` (src/__init__.py lines 40-77) with its defaults. -/
structure SecRunConfig where
  COMMAND_TIMEOUT : Nat := 30
  FONT_SIZE : Nat := 12
  FORBIDDEN_PATTERNS : List Str := defaultForbiddenPatterns

/-- Embeds the module-level prompt string `PROMPT = "~❯ "`
(src/__init__.py line 84). -/
def PROMPT : Str := "~❯ ".data

/-- Embeds Python `s.split(chr(10))`: splitting a string at every newline
character.  The result always has one more element than the number of
newlines; splitting the empty string yields one empty piece. -/
def splitNL : Str → List Str
  | [] => [[]]
  | c :: rest =>
    if c = '\n' then [] :: splitNL rest
    else
      match splitNL rest with
      | [] => [[c]]
      | l :: ls => (c :: l) :: ls

/-- Embeds Python `"\n".join(parts)` (src/__init__.py line 251). -/
def joinNL : List Str → Str
  | [] => []
  | [s] => s
  | s :: rest => s ++ '\n' :: joinNL rest

/-- Embeds Python `str.splitlines()` for the line boundaries LF, CR and
CRLF (the boundaries that can occur in the texts handled here).  A trailing
boundary produces no trailing empty line, and the empty string has no
lines. -/
def pySplitlines : Str → List Str
  | [] => []
  | '\r' :: '\n' :: rest => [] :: pySplitlines rest
  | '\n' :: rest => [] :: pySplitlines rest
  | '\r' :: rest => [] :: pySplitlines rest
  | c :: rest =>
    match pySplitlines rest with
    | [] => [[c]]
    | l :: ls => (c :: l) :: ls

/-- Digit-emitting loop of `natToStr`.  The fuel argument only bounds the
recursion depth; `natToStr` supplies `n` itself, which always exceeds the
number of digits of `n`. -/
def natToStrAux (fuel n : Nat) : Str :=
  match fuel with
  | 0 => [Char.ofNat (48 + n % 10)]
  | fuel + 1 =>
    if n < 10 then [Char.ofNat (48 + n)]
    else natToStrAux fuel (n / 10) ++ [Char.ofNat (48 + n % 10)]

/-- Embeds the decimal rendering of a natural number, as produced by a
Python f-string interpolating an `int`. -/
def natToStr (n : Nat) : Str := natToStrAux n n

/-- Embeds the decimal rendering of a Python `int`, signs included. -/
def intToStr (i : Int) : Str :=
  if i < 0 then '-' :: natToStr i.natAbs else natToStr i.toNat

theorem splitNL_ne_nil (s : Str) : splitNL s ≠ [] := by
  match s with
  | [] => simp [splitNL]
  | c :: rest =>
    rw [splitNL]
    split
    · simp
    · cases h : splitNL rest <;> simp

theorem splitNL_append_newline (a b : Str) :
    splitNL (a ++ '\n' :: b) = splitNL a ++ splitNL b := by
  induction a with
  | nil => simp [splitNL]
  | cons c a ih =>
    rcases eq_or_ne c '\n' with hc | hc
    · subst hc
      have h1 : splitNL ('\n' :: (a ++ '\n' :: b)) = [] :: splitNL (a ++ '\n' :: b) := by
        rw [splitNL, if_pos rfl]
      have h2 : splitNL ('\n' :: a) = [] :: splitNL a := by
        rw [splitNL, if_pos rfl]
      rw [List.cons_append, h1, h2, ih, List.cons_append]
    · have h1 : splitNL (c :: (a ++ '\n' :: b)) =
          match splitNL (a ++ '\n' :: b) with
          | [] => [[c]]
          | l :: ls => (c :: l) :: ls := by
        rw [splitNL, if_neg hc]
      have h2 : splitNL (c :: a) =
          match splitNL a with
          | [] => [[c]]
          | l :: ls => (c :: l) :: ls := by
        rw [splitNL, if_neg hc]
      rw [List.cons_append, h1, h2, ih]
      cases h : splitNL a with
      | nil => exact absurd h (splitNL_ne_nil a)
      | cons l ls => simp

theorem splitNL_no_newline {s : Str} (h : '\n' ∉ s) : splitNL s = [s] := by
  induction s with
  | nil => simp [splitNL]
  | cons c rest ih =>
    have hc : c ≠ '\n' := fun hh => h (hh ▸ List.mem_cons_self c rest)
    have hrest : '\n' ∉ rest := fun hh => h (List.mem_cons_of_mem c hh)
    rw [splitNL, if_neg hc, ih hrest]

theorem digitChar_ne_newline : ∀ d : Nat, d < 10 → Char.ofNat (48 + d) ≠ '\n' := by
  decide

theorem natToStrAux_no_newline (fuel n : Nat) : '\n' ∉ natToStrAux fuel n := by
  induction fuel generalizing n with
  | zero =>
    intro hmem
    simp only [natToStrAux, List.mem_singleton] at hmem
    exact digitChar_ne_newline (n % 10) (Nat.mod_lt n (by omega)) hmem.symm
  | succ fuel ih =>
    rw [natToStrAux]
    split
    next h =>
      intro hmem
      simp only [List.mem_singleton] at hmem
      exact digitChar_ne_newline n h hmem.symm
    next h =>
      intro hmem
      rcases List.mem_append.mp hmem with hl | hr
      · exact ih (n / 10) hl
      · simp only [List.mem_singleton] at hr
        exact digitChar_ne_newline (n % 10) (Nat.mod_lt n (by omega)) hr.symm

theorem natToStr_no_newline (n : Nat) : '\n' ∉ natToStr n :=
  natToStrAux_no_newline n n

theorem intToStr_no_newline (i : Int) : '\n' ∉ intToStr i := by
  rw [intToStr]
  split
  · intro hmem
    rcases List.mem_cons.mp hmem with hl | hr
    · exact absurd hl.symm (by decide)
    · exact natToStr_no_newline _ hr
  · exact natToStr_no_newline _

/-! ### UTF-8 decoding

The source decodes captured subprocess bytes with
`bytes.decode(errors="replace")` (src/__init__.py lines 137-138) and
`bytes.decode("utf-8", errors="replace")` (src/utils/helper.py lines 70-71).
We embed the CPython UTF-8 codec: `decodeOne` consumes one code point
(strict UTF-8, continuation-byte ranges per RFC 3629, surrogates and
overlong forms rejected), `decodeStrict` models `bytes.decode()` with the
default strict error handler (`none` models the raised UnicodeDecodeError),
and `decodeReplace` models `errors="replace"`: an undecodable position
emits U+FFFD and resumes after the offending byte. -/

/-- Tests a UTF-8 continuation byte (0x80-0xBF). -/
def isCont (b : Nat) : Bool := 128 ≤ b && b < 192

/-- Valid first-continuation range for a three-byte lead (excludes overlong
forms after 0xE0 and surrogates after 0xED). -/
def firstContOk3 (b c1 : Nat) : Bool :=
  if b = 224 then 160 ≤ c1 && c1 < 192
  else if b = 237 then 128 ≤ c1 && c1 < 160
  else isCont c1

/-- Valid first-continuation range for a four-byte lead (excludes overlong
forms after 0xF0 and post-U+10FFFF values after 0xF4). -/
def firstContOk4 (b c1 : Nat) : Bool :=
  if b = 240 then 144 ≤ c1 && c1 < 192
  else if b = 244 then 128 ≤ c1 && c1 < 144
  else isCont c1

/-- Decodes one UTF-8 code point from lead byte `b` followed by `rest`.
Returns the decoded character and the remaining bytes, or `none` if no
valid code point starts at `b`. -/
def decodeOne (b : Nat) (rest : List Nat) : Option (Char × List Nat) :=
  if b < 128 then some (Char.ofNat b, rest)
  else if b < 194 then none
  else if b < 224 then
    match rest with
    | c1 :: rest1 =>
      if isCont c1 then some (Char.ofNat ((b - 192) * 64 + (c1 - 128)), rest1) else none
    | [] => none
  else if b < 240 then
    match rest with
    | c1 :: c2 :: rest2 =>
      if firstContOk3 b c1 && isCont c2 then
        some (Char.ofNat ((b - 224) * 4096 + (c1 - 128) * 64 + (c2 - 128)), rest2)
      else none
    | _ => none
  else if b < 245 then
    match rest with
    | c1 :: c2 :: c3 :: rest3 =>
      if firstContOk4 b c1 && isCont c2 && isCont c3 then
        some (Char.ofNat ((b - 240) * 262144 + (c1 - 128) * 4096 + (c2 - 128) * 64 + (c3 - 128)),
          rest3)
      else none
    | _ => none
  else none

theorem decodeOne_rest_length {b : Nat} {rest : List Nat} {c : Char} {r : List Nat}
    (h : decodeOne b rest = some (c, r)) : r.length ≤ rest.length := by
  rw [decodeOne.eq_def] at h
  split at h
  · cases h; exact le_refl _
  · split at h
    · exact absurd h (by simp)
    · split at h
      · split at h
        · split at h
          · cases h; simp
          · exact absurd h (by simp)
        · exact absurd h (by simp)
      · split at h
        · split at h
          · split at h
            · cases h; simp; omega
            · exact absurd h (by simp)
          · exact absurd h (by simp)
        · split at h
          · split at h
            · split at h
              · cases h; simp; omega
              · exact absurd h (by simp)
            · exact absurd h (by simp)
          · exact absurd h (by simp)

/-- Code-point loop of `decodeStrict`.  The fuel bounds the recursion
depth; since every step consumes at least one byte, the byte count
supplied by `decodeStrict` always suffices. -/
def decodeStrictAux : Nat → List Nat → Option Str
  | _, [] => some []
  | 0, _ :: _ => none
  | fuel + 1, b :: bs =>
    match decodeOne b bs with
    | some (c, rest) => (decodeStrictAux fuel rest).map (fun s => c :: s)
    | none => none

/-- Embeds `bytes.decode()` with the strict (default) error handler:
`none` models the raised UnicodeDecodeError. -/
def decodeStrict (bs : List Nat) : Option Str := decodeStrictAux bs.length bs

/-- Code-point loop of `decodeReplace`, fuelled like `decodeStrictAux`. -/
def decodeReplaceAux : Nat → List Nat → Str
  | _, [] => []
  | 0, _ :: _ => []
  | fuel + 1, b :: bs =>
    match decodeOne b bs with
    | some (c, rest) => c :: decodeReplaceAux fuel rest
    | none => Char.ofNat 65533 :: decodeReplaceAux fuel bs

/-- Embeds `bytes.decode(errors="replace")`: where strict decoding would
raise, a U+FFFD replacement character is emitted and decoding resumes
after the offending byte.  Total by construction — this is the
never-raises shape of the source call sites (src/__init__.py lines
137-138, src/utils/helper.py lines 70-71). -/
def decodeReplace (bs : List Nat) : Str := decodeReplaceAux bs.length bs

theorem decodeReplace_agrees_aux (fuel : Nat) :
    ∀ bs : List Nat, bs.length ≤ fuel →
      (∀ s, decodeStrictAux fuel bs = some s → decodeReplaceAux fuel bs = s) ∧
      (decodeStrictAux fuel bs = none → Char.ofNat 65533 ∈ decodeReplaceAux fuel bs) := by
  induction fuel with
  | zero =>
    intro bs hlen
    have hbs : bs = [] := List.length_eq_zero.mp (Nat.le_zero.mp hlen)
    subst hbs
    refine ⟨fun s hs => ?_, fun hnone => ?_⟩
    · rw [decodeStrictAux] at hs; cases hs; rw [decodeReplaceAux]
    · rw [decodeStrictAux] at hnone; exact absurd hnone (by simp)
  | succ fuel ih =>
    intro bs hlen
    cases bs with
    | nil =>
      refine ⟨fun s hs => ?_, fun hnone => ?_⟩
      · rw [decodeStrictAux] at hs; cases hs; rw [decodeReplaceAux]
      · rw [decodeStrictAux] at hnone; exact absurd hnone (by simp)
    | cons b bs =>
      simp only [List.length_cons, Nat.succ_le_succ_iff] at hlen
      cases hone : decodeOne b bs with
      | none =>
        refine ⟨fun s hs => ?_, fun _ => ?_⟩
        · rw [decodeStrictAux, hone] at hs
          exact absurd hs (by simp)
        · rw [decodeReplaceAux, hone]
          exact List.mem_cons_self _ _
      | some cr =>
        obtain ⟨c, rest⟩ := cr
        have hr := decodeOne_rest_length hone
        refine ⟨fun s hs => ?_, fun hnone => ?_⟩
        · rw [decodeStrictAux, hone] at hs
          simp only [Option.map_eq_some'] at hs
          obtain ⟨s1, hs1, rfl⟩ := hs
          rw [decodeReplaceAux, hone]
          exact congrArg (fun t => c :: t) ((ih rest (le_trans hr hlen)).1 s1 hs1)
        · rw [decodeStrictAux, hone] at hnone
          simp only [Option.map_eq_none'] at hnone
          rw [decodeReplaceAux, hone]
          exact List.mem_cons_of_mem _ ((ih rest (le_trans hr hlen)).2 hnone)

/-! ### Base64 and UTF-8 encoding

Used by `_generate_image_data_url` (src/__init__.py lines 186, 192):
`base64.b64encode(...)` over the PNG bytes, and over the UTF-8 encoding of
the fallback error message. -/

/-- Alphabet of standard base64. -/
def base64Alphabet : Str :=
  "ABCDEFGHIJKLMNOPQRSTUVWXYZabcdefghijklmnopqrstuvwxyz0123456789+/".data

/-- Maps a 6-bit group to its base64 character. -/
def b64Char (n : Nat) : Char := base64Alphabet.getD n 'A'

/-- Embeds `base64.b64encode`: bytes to base64 text with `=` padding. -/
def base64Encode : List Nat → Str
  | [] => []
  | [a] => [b64Char (a / 4), b64Char (a % 4 * 16), '=', '=']
  | [a, b] => [b64Char (a / 4), b64Char (a % 4 * 16 + b / 16), b64Char (b % 16 * 4), '=']
  | a :: b :: c :: rest =>
    [b64Char (a / 4), b64Char (a % 4 * 16 + b / 16), b64Char (b % 16 * 4 + c / 64),
     b64Char (c % 64)] ++ base64Encode rest

/-- Embeds `str.encode()` (UTF-8 encoding) of one character. -/
def utf8EncodeChar (c : Char) : List Nat :=
  let n := c.toNat
  if n < 128 then [n]
  else if n < 2048 then [192 + n / 64, 128 + n % 64]
  else if n < 65536 then [224 + n / 4096, 128 + n / 64 % 64, 128 + n % 64]
  else [240 + n / 262144, 128 + n / 4096 % 64, 128 + n / 64 % 64, 128 + n % 64]

/-- Embeds `str.encode()` (UTF-8 encoding) of a string
(src/__init__.py line 192: `error_msg.encode()`). -/
def utf8Encode (s : Str) : List Nat := s.flatMap utf8EncodeChar

/-! ### Renderer: `_generate_image_data_url` (src/__init__.py lines 142-193)

The PIL font object is abstracted as a metrics function
`getsize : Str → Nat × Nat` (the loaded font, whether the requested
DejaVuSansMono at the configured size or Pillow's default fallback —
the fallback chain itself never raises).  The drawing and PNG
serialization are abstracted as an encoder
`enc : List Str → Nat → Nat → Except Str (List Nat)` taking the lines
and the computed image width and height and returning the PNG bytes, or
an exception message (any failure inside the try block).  Everything
else — line splitting, the size computation, base64, the data-URL
framing, and the plain-text fallback of the except branch — is embedded
directly. -/

/-- Embeds Python `max(iterable)`: `none` models the ValueError raised on
an empty sequence (src/__init__.py line 166). -/
def pyMax : List Nat → Option Nat
  | [] => none
  | x :: xs => some (xs.foldl max x)

/-- Embeds `lines = text.splitlines() or [""]` (src/__init__.py line 163):
an empty line list (Python falsy) is replaced by a single empty line. -/
def splitlinesOrBlank (text : Str) : List Str :=
  if pySplitlines text = [] then [[]] else pySplitlines text

/-- Embeds the image-size computation (src/__init__.py lines 162-170):
maximum rendered line width plus padding, line height times line count
plus padding.  Returns `none` when the `max` call would raise. -/
def layout (getsize : Str → Nat × Nat) (text : Str) : Option (Nat × Nat) :=
  let lines := splitlinesOrBlank text
  match pyMax (lines.map (fun line => (getsize line).fst)) with
  | none => none
  | some max_line_width =>
    let line_height := (getsize "Ay".data).snd + 4
    let padding := 10
    some (max_line_width + 2 * padding, line_height * lines.length + 2 * padding)

/-- The raster-and-serialize step abstracted from PIL: given the lines and
the computed image dimensions, produce PNG bytes or fail with an
exception message. -/
abbrev PngEncoder := List Str → Nat → Nat → Except Str (List Nat)

/-- Embeds the except branch of `_generate_image_data_url`
(src/__init__.py lines 188-193): a plain-text data URL wrapping the
base64 of the UTF-8 encoded error message. -/
def textFallback (exc : Str) : Str :=
  "data:text/plain;base64,".data ++
    base64Encode (utf8Encode ("Image generation error: ".data ++ exc))

/-- Embeds `_generate_image_data_url` (src/__init__.py lines 142-193).
The `font_size` argument only parameterizes the font whose metrics are
`getsize`; it does not otherwise enter the computation. -/
def generate_image_data_url (enc : PngEncoder) (getsize : Str → Nat × Nat)
    (text : Str) (font_size : Nat) : Str :=
  match layout getsize text with
  | none => textFallback "max arg is an empty sequence".data
  | some (img_width, img_height) =>
    match enc (splitlinesOrBlank text) img_width img_height with
    | .ok png_bytes => "data:image/png;base64,".data ++ base64Encode png_bytes
    | .error exc => textFallback exc

/-! ### Process runner: `_run_shell_command` (src/__init__.py lines 105-139)

What the operating system does with the spawned shell is abstracted as a
`ProcBehavior` oracle; the embedding records which cleanup actions the
runner performs on it. -/

/-- Behavior of the spawned process for one request: it completes with
captured stdout/stderr bytes and an exit code, it outlives the timeout,
the spawn itself fails with an OSError, or some other exception is
raised. -/
inductive ProcBehavior where
  | completes (stdoutBytes stderrBytes : List Nat) (returncode : Int)
  | hangs
  | spawnFails (msg : Str)
  | raisesOther (msg : Str)

/-- Exceptions that `_run_shell_command` can propagate, as caught by
`run_command_to_pict` (src/__init__.py lines 234-243). -/
inductive RunError where
  | timeoutError
  | osError (msg : Str)
  | otherError (msg : Str)

/-- Records what happened to the spawned process: whether a process was
spawned at all, and whether the runner killed it and waited on it. -/
structure RunTrace where
  spawned : Bool
  killed : Bool
  waited : Bool

/-- Trace of a request for which no process was ever spawned. -/
def noSpawn : RunTrace := ⟨false, false, false⟩

/-- Embeds `_run_shell_command` (src/__init__.py lines 105-139): spawn,
wait with timeout, kill-and-wait on timeout before re-raising, decode
captured bytes with replacement on normal completion. -/
def run_shell_command (beh : ProcBehavior) : Except RunError (Str × Str) × RunTrace :=
  match beh with
  | .spawnFails msg => (.error (.osError msg), noSpawn)
  | .raisesOther msg => (.error (.otherError msg), noSpawn)
  | .hangs => (.error .timeoutError, ⟨true, true, true⟩)
  | .completes stdoutBytes stderrBytes _ =>
    let stdout := if stdoutBytes = [] then [] else decodeReplace stdoutBytes
    let stderr := if stderrBytes = [] then [] else decodeReplace stderrBytes
    (.ok (stdout, stderr), ⟨true, false, false⟩)

/-! ### Main pipeline: `run_command_to_pict` (src/__init__.py lines 204-254) -/

/-- Embeds the transcript composition (src/__init__.py lines 245-251):
prompt plus command, then the rstripped stdout if non-empty, then the
rstripped stderr if non-empty, joined by newlines. -/
def combineOutput (command stdout stderr : Str) : Str :=
  joinNL ([PROMPT ++ command] ++
    (if stdout = [] then [] else [pyRstrip stdout]) ++
    (if stderr = [] then [] else [pyRstrip stderr]))

/-- Rejection message of the forbidden-pattern branch
(src/__init__.py line 222). -/
def blockedMsg : Str := "Command contains forbidden patterns and was blocked.".data

/-- Timeout message (src/__init__.py line 235). -/
def timeoutMsg (seconds : Nat) : Str :=
  "Command timed out after ".data ++ natToStr seconds ++ " seconds.".data

/-- Embeds `run_command_to_pict` (src/__init__.py lines 204-254): filter,
run, compose, render; every failure branch returns a rendered diagnostic
data URL.  The second component records the process trace (`noSpawn`
when the command was rejected before execution).  The try/except around
the filter call (lines 220-229) guards only config access; the embedded
filter is total, so that handler is unreachable here. -/
def run_command_to_pict (enc : PngEncoder) (getsize : Str → Nat × Nat)
    (beh : ProcBehavior) (cfg : SecRunConfig) (command : Str) : Str × RunTrace :=
  if contains_forbidden_pattern command cfg.FORBIDDEN_PATTERNS then
    (generate_image_data_url enc getsize blockedMsg cfg.FONT_SIZE, noSpawn)
  else
    match run_shell_command beh with
    | (.error .timeoutError, tr) =>
      (generate_image_data_url enc getsize (timeoutMsg cfg.COMMAND_TIMEOUT) cfg.FONT_SIZE, tr)
    | (.error (.osError msg), tr) =>
      (generate_image_data_url enc getsize ("OS error: ".data ++ msg) cfg.FONT_SIZE, tr)
    | (.error (.otherError msg), tr) =>
      (generate_image_data_url enc getsize ("Error: ".data ++ msg) cfg.FONT_SIZE, tr)
    | (.ok (stdout, stderr), tr) =>
      (generate_image_data_url enc getsize (combineOutput command stdout stderr) cfg.FONT_SIZE, tr)

/-! ### Helper-variant pipeline: `execute_command_and_generate_image`
(src/utils/helper.py lines 21-96)

This variant writes PNG files to a shared path and returns the path.
The image creation (PIL drawing plus `image.save`) is abstracted as two
functions: `mkImage` for `_create_command_output_image`'s main body and
`mkSimple` for `_create_simple_error_image`; each returns the written
path or fails with an exception message. -/

/-- ASCII apostrophe, written out to keep source messages exact. -/
def squote : Char := Char.ofNat 39

/-- Embeds `_create_error_image` (src/utils/helper.py lines 216-234): try
the simple error image; on any exception return the empty path as the
last-resort fallback. -/
def create_error_image (mkSimple : Str → Except Str Str) (msg : Str) : Str :=
  match mkSimple msg with
  | .ok path => path
  | .error _ => []

/-- Embeds `_create_command_output_image` (src/utils/helper.py lines
125-213): attempt the styled output image; on an exception fall back to
the simple error image.  The fallback call is not itself wrapped, so its
exception propagates — hence the `Except` return. -/
def create_command_output_image (mkImage mkSimple : Str → Except Str Str)
    (output_text : Str) : Except Str Str :=
  match mkImage output_text with
  | .ok path => .ok path
  | .error e => mkSimple ("图片生成失败: ".data ++ e)

/-- Embeds the output composition of `execute_command_and_generate_image`
(src/utils/helper.py lines 80-87): prompt line, raw stdout if non-empty,
a labelled stderr block if non-empty, and an exit-code line when the
return code is non-zero. -/
def helperFullOutput (ps1 command stdout_text stderr_text : Str) (returncode : Int) : Str :=
  let full0 := ps1 ++ command ++ "\n".data
  let full1 := if stdout_text = [] then full0 else full0 ++ stdout_text
  let full2 := if stderr_text = [] then full1
    else full1 ++ "\n[错误输出]:\n".data ++ stderr_text
  if returncode ≠ 0 then full2 ++ "\n[退出码]: ".data ++ intToStr returncode else full2

/-- Embeds the forbidden-command rejection message
(src/utils/helper.py line 47). -/
def helperBlockedMsg (pattern : Str) : Str :=
  "安全检查失败: 命令包含危险操作 ".data ++ squote :: pattern ++ [squote]

/-- Embeds the timeout message (src/utils/helper.py line 75). -/
def helperTimeoutMsg (max_timeout : Nat) : Str :=
  "命令执行超时 (".data ++ natToStr max_timeout ++ "秒)".data

/-- Embeds `execute_command_and_generate_image` (src/utils/helper.py
lines 21-96).  `ps1` is the environment's PS1 value (defaulting to the
dollar prompt at line 51).  Note the timeout branch (lines 73-75) does
NOT kill the spawned process — the trace records `killed := false`. -/
def execute_command_and_generate_image (mkImage mkSimple : Str → Except Str Str)
    (beh : ProcBehavior) (ps1 : Str) (patterns : List Str) (command : Str)
    (max_timeout : Nat) : Str × RunTrace :=
  match helper_forbidden_scan command patterns with
  | some pattern => (create_error_image mkSimple (helperBlockedMsg pattern), noSpawn)
  | none =>
    let ps1 := if ps1.getLast? = some ' ' then ps1 else ps1 ++ [' ']
    match beh with
    | .hangs =>
      (create_error_image mkSimple (helperTimeoutMsg max_timeout), ⟨true, false, false⟩)
    | .spawnFails msg =>
      (create_error_image mkSimple ("命令执行失败: ".data ++ msg), noSpawn)
    | .raisesOther msg =>
      (create_error_image mkSimple ("命令执行失败: ".data ++ msg), noSpawn)
    | .completes stdoutBytes stderrBytes returncode =>
      let stdout_text := decodeReplace stdoutBytes
      let stderr_text := decodeReplace stderrBytes
      let full_output := helperFullOutput ps1 command stdout_text stderr_text returncode
      match create_command_output_image mkImage mkSimple full_output with
      | .ok path => (path, ⟨true, false, false⟩)
      | .error e =>
        (create_error_image mkSimple ("未知错误: ".data ++ e), ⟨true, false, false⟩)

/-! ### Shared lemmas -/

theorem contains_forbidden_pattern_spec (command : Str) (patterns : List Str) :
    contains_forbidden_pattern command patterns = true ↔
      ∃ p ∈ patterns, pyLower p <:+: pyLower command := by
  simp [contains_forbidden_pattern, containsSub, List.any_eq_true]

theorem helper_forbidden_scan_spec (command : Str) (patterns : List Str) :
    (helper_forbidden_scan command patterns).isSome = true ↔
      ∃ p ∈ patterns, p <:+: pyStrip (pyLower command) := by
  simp [helper_forbidden_scan, containsSub, List.find?_isSome]

theorem splitlinesOrBlank_ne_nil (text : Str) : splitlinesOrBlank text ≠ [] := by
  rw [splitlinesOrBlank]
  split
  · simp
  · assumption

theorem layout_pos (getsize : Str → Nat × Nat) (text : Str) :
    ∃ w h, layout getsize text = some (w, h) ∧ 0 < w ∧ 0 < h := by
  cases hl : splitlinesOrBlank text with
  | nil => exact absurd hl (splitlinesOrBlank_ne_nil text)
  | cons l ls =>
    refine ⟨(ls.map (fun line => (getsize line).fst)).foldl max (getsize l).fst + 2 * 10,
      ((getsize "Ay".data).snd + 4) * (l :: ls).length + 2 * 10, ?_, by omega, by omega⟩
    simp only [layout, hl, List.map_cons, pyMax]

theorem create_error_image_cases (mkSimple : Str → Except Str Str) (msg : Str) :
    create_error_image mkSimple msg = [] ∨
      mkSimple msg = .ok (create_error_image mkSimple msg) := by
  rw [create_error_image]
  cases h : mkSimple msg with
  | ok path => exact Or.inr rfl
  | error e => exact Or.inl rfl

/-! ### Claim theorems -/

/-- C10: the renderer is total on the empty string: `splitlines` of the
empty text yields no lines, which line 163 of src/__init__.py replaces
with a single blank line, so the maximum-line-width computation is never
taken over an empty sequence (the `max` call never raises) and the
computed image dimensions are positive for every text and every font
metric. -/
theorem renderer_total_on_empty_text :
    splitlinesOrBlank [] = [[]] ∧
    ∀ (getsize : Str → Nat × Nat) (text : Str),
      ∃ w h, layout getsize text = some (w, h) ∧ 0 < w ∧ 0 < h :=
  ⟨by decide, layout_pos⟩

/-- C9: rendering is deterministic: the output of
`_generate_image_data_url` is a function of the transcript text, the
font size, and the (input-output) behavior of the font metrics and of
the raster-and-serialize library step; two invocations with the same
inputs and the same library behavior produce identical data-URL strings.
The repository code adds no hidden input (no time, randomness, or
mutable state). -/
theorem render_deterministic (enc1 enc2 : PngEncoder) (gs1 gs2 : Str → Nat × Nat)
    (text : Str) (font_size : Nat)
    (henc : ∀ lines w h, enc1 lines w h = enc2 lines w h)
    (hgs : ∀ s, gs1 s = gs2 s) :
    generate_image_data_url enc1 gs1 text font_size =
      generate_image_data_url enc2 gs2 text font_size := by
  have hgs2 : gs1 = gs2 := funext hgs
  have henc2 : enc1 = enc2 := funext fun l => funext fun w => funext fun h => henc l w h
  rw [hgs2, henc2]

/-- Witness for C9: the determinism theorem applied at a concrete
encoder, font metric, text and font size. -/
theorem render_deterministic_witness :
    generate_image_data_url (fun _ _ _ => .ok [1, 2, 3]) (fun _ => (7, 13)) "hi".data 12 =
      generate_image_data_url (fun _ _ _ => .ok [1, 2, 3]) (fun _ => (7, 13)) "hi".data 12 :=
  render_deterministic _ _ _ _ "hi".data 12 (fun _ _ _ => rfl) (fun _ => rfl)

/-- C8: decoding captured bytes never raises and replaces invalid byte
sequences: wherever the strict decoder (plain `bytes.decode()`) succeeds
the replace decoder agrees with it, and wherever the strict decoder
would raise a UnicodeDecodeError the replace decoder still returns a
string, which contains the U+FFFD replacement character. -/
theorem decode_never_raises (bs : List Nat) :
    (∀ s, decodeStrict bs = some s → decodeReplace bs = s) ∧
    (decodeStrict bs = none → Char.ofNat 65533 ∈ decodeReplace bs) :=
  decodeReplace_agrees_aux bs.length bs (le_refl _)

/-- Witness for C8: a valid byte decodes to itself and the invalid byte
0xFF produces a replacement character. -/
theorem decode_never_raises_witness :
    decodeReplace [104] = ['h'] ∧ Char.ofNat 65533 ∈ decodeReplace [255] :=
  ⟨(decode_never_raises [104]).1 ['h'] (by decide),
   (decode_never_raises [255]).2 (by decide)⟩

/-- Counterexample to C7 as stated: when the raster-and-serialize step
fails, `_generate_image_data_url` returns its fallback
(src/__init__.py lines 188-193), which is a `data:text/plain;base64,`
URL — not an image/png data URL (and not a filesystem path), so not
every returned artifact reference dereferences to a valid PNG. -/
theorem png_artifact_counterexample :
    ((generate_image_data_url (fun _ _ _ => .error "boom".data) (fun _ => (0, 0))
        "hello".data 12).take "data:image/png;base64,".data.length ≠
      "data:image/png;base64,".data) ∧
    ((generate_image_data_url (fun _ _ _ => .error "boom".data) (fun _ => (0, 0))
        "hello".data 12).take "data:text/plain;base64,".data.length =
      "data:text/plain;base64,".data) := by
  constructor
  · decide
  · decide

/-- C7 amended: every artifact returned by the renderer is a data URL;
it is an image/png data URL carrying the base64 of the PNG bytes
whenever the raster-and-serialize step succeeds, and a text/plain
fallback data URL carrying the error description when that step fails. -/
theorem artifact_url_shape_amended :
    (∀ (getsize : Str → Nat × Nat) (text : Str) (font_size : Nat) (png : List Nat),
      generate_image_data_url (fun _ _ _ => .ok png) getsize text font_size =
        "data:image/png;base64,".data ++ base64Encode png) ∧
    (∀ (getsize : Str → Nat × Nat) (text : Str) (font_size : Nat) (exc : Str),
      generate_image_data_url (fun _ _ _ => .error exc) getsize text font_size =
        textFallback exc) ∧
    (∀ exc : Str,
      (textFallback exc).take "data:text/plain;base64,".data.length =
        "data:text/plain;base64,".data) := by
  refine ⟨fun getsize text font_size png => ?_, fun getsize text font_size exc => ?_,
    fun exc => ?_⟩
  · obtain ⟨w, h, hl, -, -⟩ := layout_pos getsize text
    rw [generate_image_data_url, hl]
  · obtain ⟨w, h, hl, -, -⟩ := layout_pos getsize text
    rw [generate_image_data_url, hl]
  · rw [textFallback]
    exact List.take_left _ _

/-- Every value returned by the helper pipeline is the empty path or a
path produced by one of the two image writers — provenance lemma used
for the totality claim. -/
theorem helper_result_provenance (mkImage mkSimple : Str → Except Str Str)
    (beh : ProcBehavior) (ps1 : Str) (patterns : List Str) (command : Str)
    (max_timeout : Nat) :
    (execute_command_and_generate_image mkImage mkSimple beh ps1 patterns command
        max_timeout).1 = [] ∨
    (∃ m, mkSimple m = .ok ((execute_command_and_generate_image mkImage mkSimple beh ps1
      patterns command max_timeout).1)) ∨
    (∃ m, mkImage m = .ok ((execute_command_and_generate_image mkImage mkSimple beh ps1
      patterns command max_timeout).1)) := by
  have herr : ∀ msg : Str, create_error_image mkSimple msg = [] ∨
      (∃ m, mkSimple m = .ok (create_error_image mkSimple msg)) := by
    intro msg
    rcases create_error_image_cases mkSimple msg with h | h
    · exact Or.inl h
    · exact Or.inr ⟨msg, h⟩
  rw [execute_command_and_generate_image]
  cases hscan : helper_forbidden_scan command patterns with
  | some p =>
    rcases herr (helperBlockedMsg p) with h | h
    · exact Or.inl h
    · exact Or.inr (Or.inl h)
  | none =>
    cases beh with
    | hangs =>
      rcases herr (helperTimeoutMsg max_timeout) with h | h
      · exact Or.inl h
      · exact Or.inr (Or.inl h)
    | spawnFails msg =>
      rcases herr ("命令执行失败: ".data ++ msg) with h | h
      · exact Or.inl h
      · exact Or.inr (Or.inl h)
    | raisesOther msg =>
      rcases herr ("命令执行失败: ".data ++ msg) with h | h
      · exact Or.inl h
      · exact Or.inr (Or.inl h)
    | completes out err rc =>
      simp only []
      cases hcc : create_command_output_image mkImage mkSimple
          (helperFullOutput (if ps1.getLast? = some ' ' then ps1 else ps1 ++ [' '])
            command (decodeReplace out) (decodeReplace err) rc) with
      | ok p =>
        rw [create_command_output_image] at hcc
        cases hmk : mkImage (helperFullOutput
            (if ps1.getLast? = some ' ' then ps1 else ps1 ++ [' '])
            command (decodeReplace out) (decodeReplace err) rc) with
        | ok q =>
          rw [hmk] at hcc
          cases hcc
          exact Or.inr (Or.inr ⟨_, hmk⟩)
        | error e =>
          rw [hmk] at hcc
          exact Or.inr (Or.inl ⟨_, hcc⟩)
      | error e =>
        rcases herr ("未知错误: ".data ++ e) with h | h
        · exact Or.inl h
        · exact Or.inr (Or.inl h)

/-- C1: for every command and every failure mode (admission rejection,
timeout, spawn failure, render failure, unexpected fault) both pipeline
entry points return an artifact reference normally.  The embedding is
total — no exception value escapes: every return of
`run_command_to_pict` is the rendering of some transcript or diagnostic
text, and every return of `execute_command_and_generate_image` is the
empty last-resort path or a path produced by one of its image writers. -/
theorem pipeline_always_returns_rendered_artifact
    (enc : PngEncoder) (getsize : Str → Nat × Nat) (beh : ProcBehavior)
    (cfg : SecRunConfig) (command : Str)
    (mkImage mkSimple : Str → Except Str Str) (ps1 hcommand : Str)
    (patterns : List Str) (max_timeout : Nat) :
    (∃ text, (run_command_to_pict enc getsize beh cfg command).1 =
      generate_image_data_url enc getsize text cfg.FONT_SIZE) ∧
    ((execute_command_and_generate_image mkImage mkSimple beh ps1 patterns hcommand
        max_timeout).1 = [] ∨
      (∃ m, mkSimple m = .ok ((execute_command_and_generate_image mkImage mkSimple beh ps1
        patterns hcommand max_timeout).1)) ∨
      (∃ m, mkImage m = .ok ((execute_command_and_generate_image mkImage mkSimple beh ps1
        patterns hcommand max_timeout).1))) := by
  constructor
  · rw [run_command_to_pict]
    by_cases hb : contains_forbidden_pattern command cfg.FORBIDDEN_PATTERNS = true
    · rw [if_pos hb]
      exact ⟨blockedMsg, rfl⟩
    · rw [if_neg hb]
      cases beh with
      | completes out err rc => exact ⟨_, rfl⟩
      | hangs => exact ⟨_, rfl⟩
      | spawnFails m => exact ⟨_, rfl⟩
      | raisesOther m => exact ⟨_, rfl⟩
  · exact helper_result_provenance mkImage mkSimple beh ps1 patterns hcommand max_timeout

/-- Counterexample to C2 as stated: the command consisting of the word
kill followed by a space contains the configured forbidden substring
made of kill and a trailing space (case-insensitively, even verbatim),
yet the helper-variant pipeline spawns a subprocess for it and returns
the normal command-output image, because its scan strips the command
before the containment test (src/utils/helper.py line 42), which removes
the trailing space the pattern needs. -/
theorem forbidden_substring_spawned_counterexample :
    (∃ p ∈ defaultForbiddenPatterns, pyLower p <:+: pyLower "kill ".data) ∧
    (execute_command_and_generate_image (fun _ => .ok "out.png".data)
        (fun _ => .ok "err.png".data) (.completes [] [] 0) "$ ".data
        defaultForbiddenPatterns "kill ".data 30).2.spawned = true ∧
    (execute_command_and_generate_image (fun _ => .ok "out.png".data)
        (fun _ => .ok "err.png".data) (.completes [] [] 0) "$ ".data
        defaultForbiddenPatterns "kill ".data 30).1 = "out.png".data := by
  refine ⟨⟨"kill ".data, by decide, by decide⟩, by decide, by decide⟩

/-- C2 amended: a command is rejected without spawning exactly by the
variant's own admission test.  In the main variant, any command some
lower-cased configured pattern is a substring of (lower-cased) is
rejected with the blocked-message artifact and no process trace; in the
helper variant the same holds when some pattern occurs verbatim in the
lower-cased, stripped command.  The helper variant does not reject
commands that only match case-insensitively or only via leading or
trailing whitespace. -/
theorem admission_rejection_amended :
    (∀ (enc : PngEncoder) (getsize : Str → Nat × Nat) (beh : ProcBehavior)
        (cfg : SecRunConfig) (command : Str),
      (∃ p ∈ cfg.FORBIDDEN_PATTERNS, pyLower p <:+: pyLower command) →
      (run_command_to_pict enc getsize beh cfg command).2.spawned = false ∧
      (run_command_to_pict enc getsize beh cfg command).1 =
        generate_image_data_url enc getsize blockedMsg cfg.FONT_SIZE) ∧
    (∀ (mkImage mkSimple : Str → Except Str Str) (beh : ProcBehavior)
        (ps1 : Str) (patterns : List Str) (command : Str) (max_timeout : Nat)
        (p : Str),
      helper_forbidden_scan command patterns = some p →
      (execute_command_and_generate_image mkImage mkSimple beh ps1 patterns command
        max_timeout).2.spawned = false ∧
      (execute_command_and_generate_image mkImage mkSimple beh ps1 patterns command
        max_timeout).1 = create_error_image mkSimple (helperBlockedMsg p)) := by
  constructor
  · intro enc getsize beh cfg command hmatch
    have hb : contains_forbidden_pattern command cfg.FORBIDDEN_PATTERNS = true :=
      (contains_forbidden_pattern_spec command cfg.FORBIDDEN_PATTERNS).mpr hmatch
    rw [run_command_to_pict, if_pos hb]
    exact ⟨rfl, rfl⟩
  · intro mkImage mkSimple beh ps1 patterns command max_timeout p hscan
    rw [execute_command_and_generate_image, hscan]
    exact ⟨rfl, rfl⟩

/-- Witness for C2 amended: both rejection branches exercised on the
default blocklist — the main variant blocks the kill-space command and
the helper variant blocks a reboot command (whose pattern needs no
trailing space). -/
theorem admission_rejection_amended_witness :
    ((run_command_to_pict (fun _ _ _ => .ok [1]) (fun _ => (5, 9)) (.completes [] [] 0)
        {} "kill ".data).2.spawned = false ∧
      (run_command_to_pict (fun _ _ _ => .ok [1]) (fun _ => (5, 9)) (.completes [] [] 0)
        {} "kill ".data).1 =
        generate_image_data_url (fun _ _ _ => .ok [1]) (fun _ => (5, 9)) blockedMsg
          (SecRunConfig.FONT_SIZE {})) ∧
    ((execute_command_and_generate_image (fun _ => .ok "out.png".data)
        (fun _ => .ok "err.png".data) (.completes [] [] 0) "$ ".data
        defaultForbiddenPatterns "reboot now".data 30).2.spawned = false ∧
      (execute_command_and_generate_image (fun _ => .ok "out.png".data)
        (fun _ => .ok "err.png".data) (.completes [] [] 0) "$ ".data
        defaultForbiddenPatterns "reboot now".data 30).1 =
        create_error_image (fun _ => .ok "err.png".data)
          (helperBlockedMsg "reboot".data)) :=
  ⟨(admission_rejection_amended.1 (fun _ _ _ => .ok [1]) (fun _ => (5, 9))
      (.completes [] [] 0) {} "kill ".data ⟨"kill ".data, by decide, by decide⟩),
   (admission_rejection_amended.2 (fun _ => .ok "out.png".data)
      (fun _ => .ok "err.png".data) (.completes [] [] 0) "$ ".data
      defaultForbiddenPatterns "reboot now".data 30 "reboot".data (by decide))⟩

/-- Theorem for C3 (code bug): on a command that outlives the timeout,
the main variant kills and reaps the process before returning and
renders the timeout message (src/__init__.py lines 128-136, 234-237) —
but the helper variant returns its timeout error image with the process
still alive: its TimeoutError handler (src/utils/helper.py lines 73-75)
performs no kill, so the trace records a spawned, never-killed process. -/
theorem timeout_kill_divergence :
    (∀ (enc : PngEncoder) (getsize : Str → Nat × Nat) (cfg : SecRunConfig)
        (command : Str),
      contains_forbidden_pattern command cfg.FORBIDDEN_PATTERNS = false →
      (run_command_to_pict enc getsize .hangs cfg command).2 = ⟨true, true, true⟩ ∧
      (run_command_to_pict enc getsize .hangs cfg command).1 =
        generate_image_data_url enc getsize (timeoutMsg cfg.COMMAND_TIMEOUT)
          cfg.FONT_SIZE) ∧
    (∀ (mkImage mkSimple : Str → Except Str Str) (ps1 : Str) (patterns : List Str)
        (command : Str) (max_timeout : Nat),
      helper_forbidden_scan command patterns = none →
      (execute_command_and_generate_image mkImage mkSimple .hangs ps1 patterns command
        max_timeout).2 = ⟨true, false, false⟩ ∧
      (execute_command_and_generate_image mkImage mkSimple .hangs ps1 patterns command
        max_timeout).1 = create_error_image mkSimple (helperTimeoutMsg max_timeout)) := by
  constructor
  · intro enc getsize cfg command hb
    rw [run_command_to_pict, if_neg (by rw [hb]; exact Bool.false_ne_true)]
    exact ⟨rfl, rfl⟩
  · intro mkImage mkSimple ps1 patterns command max_timeout hscan
    rw [execute_command_and_generate_image, hscan]
    exact ⟨rfl, rfl⟩

/-- Witness for C3's theorem: a sleep command under the default
configuration — the main variant's trace shows kill and wait, the helper
variant's trace shows the leak. -/
theorem timeout_kill_divergence_witness :
    ((run_command_to_pict (fun _ _ _ => .ok [1]) (fun _ => (5, 9)) .hangs {}
        "sleep 60".data).2 = RunTrace.mk true true true ∧
      (run_command_to_pict (fun _ _ _ => .ok [1]) (fun _ => (5, 9)) .hangs {}
        "sleep 60".data).1 =
        generate_image_data_url (fun _ _ _ => .ok [1]) (fun _ => (5, 9))
          (timeoutMsg (SecRunConfig.COMMAND_TIMEOUT {})) (SecRunConfig.FONT_SIZE {})) ∧
    ((execute_command_and_generate_image (fun _ => .ok "out.png".data)
        (fun _ => .ok "err.png".data) .hangs "$ ".data defaultForbiddenPatterns
        "sleep 60".data 1).2 = RunTrace.mk true false false ∧
      (execute_command_and_generate_image (fun _ => .ok "out.png".data)
        (fun _ => .ok "err.png".data) .hangs "$ ".data defaultForbiddenPatterns
        "sleep 60".data 1).1 =
        create_error_image (fun _ => .ok "err.png".data) (helperTimeoutMsg 1)) :=
  ⟨timeout_kill_divergence.1 (fun _ _ _ => .ok [1]) (fun _ => (5, 9)) {}
      "sleep 60".data (by decide),
   timeout_kill_divergence.2 (fun _ => .ok "out.png".data)
      (fun _ => .ok "err.png".data) "$ ".data defaultForbiddenPatterns
      "sleep 60".data 1 (by decide)⟩

/-- Counterexample to C4 as stated: with the configured pattern SUDO in
upper case followed by a space, and the command sudo ls, the lower-cased
pattern is a substring of the lower-cased command, yet the helper
variant's admission scan (src/utils/helper.py lines 42-48) finds no
match, because it compares the pattern verbatim without lower-casing it;
the main variant's check does return true on the same input. -/
theorem case_insensitive_check_counterexample :
    (pyLower "SUDO ".data <:+: pyLower "sudo ls".data) ∧
    helper_forbidden_scan "sudo ls".data ["SUDO ".data] = none ∧
    contains_forbidden_pattern "sudo ls".data ["SUDO ".data] = true :=
  ⟨by decide, by decide, by decide⟩

/-- C4 amended: the main variant's check returns true exactly when some
lower-cased configured pattern is a substring of the lower-cased command
(case-insensitive in both operands); the helper variant's scan matches
exactly when some pattern occurs verbatim in the lower-cased, stripped
command, so it is case-insensitive in the command operand only. -/
theorem admission_check_characterization :
    (∀ (command : Str) (patterns : List Str),
      contains_forbidden_pattern command patterns = true ↔
        ∃ p ∈ patterns, pyLower p <:+: pyLower command) ∧
    (∀ (command : Str) (patterns : List Str),
      (helper_forbidden_scan command patterns).isSome = true ↔
        ∃ p ∈ patterns, p <:+: pyStrip (pyLower command)) :=
  ⟨contains_forbidden_pattern_spec, helper_forbidden_scan_spec⟩

/-- Witness for C4 amended: the characterization applied to the default
blocklist and a sudo command. -/
theorem admission_check_characterization_witness :
    contains_forbidden_pattern "sudo ls".data defaultForbiddenPatterns = true :=
  (admission_check_characterization.1 "sudo ls".data defaultForbiddenPatterns).mpr
    ⟨"sudo ".data, by decide, by decide⟩

/-- Counterexample to C5 as stated: for the command exit 3, the main
variant composes no exit-status line at all — the transcript's final
line is the prompt line, not the claimed status line — and the helper
variant's final line is its bracketed Chinese exit-code label, which
also differs from the claimed status-line text. -/
theorem exit_code_line_counterexample :
    (splitNL (combineOutput "exit 3".data [] [])).getLast? =
      some (PROMPT ++ "exit 3".data) ∧
    PROMPT ++ "exit 3".data ≠ "exit code: 3".data ∧
    (splitNL (helperFullOutput "$ ".data "exit 3".data [] [] 3)).getLast? =
      some "[退出码]: 3".data ∧
    "[退出码]: 3".data ≠ "exit code: 3".data :=
  ⟨by decide, by decide, by decide, by decide⟩

/-- C5 amended: in the helper variant, for every accepted command whose
process exits with a non-zero code N, the composed transcript's final
line is the bracketed exit-code label followed by N; the main variant's
pipeline output does not depend on the exit code at all and appends no
status line. -/
theorem exit_code_line_amended :
    (∀ (ps1 command stdout_text stderr_text : Str) (returncode : Int),
      returncode ≠ 0 →
      (splitNL (helperFullOutput ps1 command stdout_text stderr_text
        returncode)).getLast? = some ("[退出码]: ".data ++ intToStr returncode)) ∧
    (∀ (enc : PngEncoder) (getsize : Str → Nat × Nat) (cfg : SecRunConfig)
        (command : Str) (out err : List Nat) (rc1 rc2 : Int),
      run_command_to_pict enc getsize (.completes out err rc1) cfg command =
        run_command_to_pict enc getsize (.completes out err rc2) cfg command) := by
  constructor
  · intro ps1 command stdout_text stderr_text returncode hrc
    simp only [helperFullOutput]
    rw [if_pos hrc]
    have hnl : '\n' ∉ "[退出码]: ".data ++ intToStr returncode := by
      intro hmem
      rcases List.mem_append.mp hmem with h | h
      · exact (by decide : '\n' ∉ "[退出码]: ".data) h
      · exact intToStr_no_newline returncode h
    have hx : ∀ t : Str, t ++ "\n[退出码]: ".data ++ intToStr returncode =
        t ++ '\n' :: ("[退出码]: ".data ++ intToStr returncode) := by
      intro t
      rw [List.append_assoc]
      rfl
    rw [hx, splitNL_append_newline, splitNL_no_newline hnl, List.getLast?_concat]
  · intro enc getsize cfg command out err rc1 rc2
    rfl

/-- Witness for C5 amended: command exit 3 with exit code 3 under the
helper composer, and exit-code independence of the main pipeline at a
concrete input. -/
theorem exit_code_line_amended_witness :
    ((splitNL (helperFullOutput "$ ".data "exit 3".data [] [] 3)).getLast? =
      some "[退出码]: 3".data) ∧
    run_command_to_pict (fun _ _ _ => .ok [1]) (fun _ => (5, 9))
        (.completes [104] [] 3) {} "exit 3".data =
      run_command_to_pict (fun _ _ _ => .ok [1]) (fun _ => (5, 9))
        (.completes [104] [] 0) {} "exit 3".data := by
  constructor
  · have h := exit_code_line_amended.1 "$ ".data "exit 3".data [] [] 3 (by decide)
    rw [h]
    decide
  · exact exit_code_line_amended.2 (fun _ _ _ => .ok [1]) (fun _ => (5, 9)) {}
      "exit 3".data [104] [] 3 0

/-- C6: for every accepted execution with non-empty stdout and non-empty
stderr, all stdout lines precede all stderr lines in the composed
transcript, in both variants and for every exit code: the main
transcript's line list is exactly the prompt-line block, then the
rstripped stdout lines, then the rstripped stderr lines; the helper
transcript's line list is the prompt block, the stdout lines, the
error-output label line, the stderr lines, and finally — only when the
return code is non-zero — the exit-code status line. -/
theorem stdout_precedes_stderr :
    (∀ (command stdout stderr : Str), stdout ≠ [] → stderr ≠ [] →
      splitNL (combineOutput command stdout stderr) =
        splitNL (PROMPT ++ command) ++ splitNL (pyRstrip stdout) ++
          splitNL (pyRstrip stderr)) ∧
    (∀ (ps1 command stdout_text stderr_text : Str) (returncode : Int),
      stdout_text ≠ [] → stderr_text ≠ [] →
      splitNL (helperFullOutput ps1 command stdout_text stderr_text returncode) =
        splitNL (ps1 ++ command) ++ splitNL stdout_text ++
          ["[错误输出]:".data] ++ splitNL stderr_text ++
          (if returncode = 0 then []
            else ["[退出码]: ".data ++ intToStr returncode])) := by
  constructor
  · intro command stdout stderr hout herr
    rw [combineOutput, if_neg hout, if_neg herr]
    have hjoin : joinNL ([PROMPT ++ command] ++ [pyRstrip stdout] ++ [pyRstrip stderr]) =
        (PROMPT ++ command) ++ '\n' :: (pyRstrip stdout ++ '\n' :: pyRstrip stderr) := rfl
    rw [hjoin, splitNL_append_newline, splitNL_append_newline, List.append_assoc]
  · intro ps1 command stdout_text stderr_text returncode hout herr
    have l2 : "\n[错误输出]:\n".data = '\n' :: ("[错误输出]:".data ++ ['\n']) := rfl
    have he : ps1 ++ command ++ "\n".data ++ stdout_text ++ "\n[错误输出]:\n".data ++
        stderr_text =
        (ps1 ++ command) ++ '\n' ::
          (stdout_text ++ '\n' :: ("[错误输出]:".data ++ '\n' :: stderr_text)) := by
      rw [l2]
      simp [List.append_assoc]
    have hfull2 : splitNL (ps1 ++ command ++ "\n".data ++ stdout_text ++
        "\n[错误输出]:\n".data ++ stderr_text) =
        splitNL (ps1 ++ command) ++ splitNL stdout_text ++ ["[错误输出]:".data] ++
          splitNL stderr_text := by
      rw [he, splitNL_append_newline, splitNL_append_newline, splitNL_append_newline,
        splitNL_no_newline (by decide : ('\n' : Char) ∉ "[错误输出]:".data)]
      simp [List.append_assoc]
    simp only [helperFullOutput]
    rw [if_neg hout, if_neg herr]
    rcases eq_or_ne returncode 0 with hrc | hrc
    · rw [if_neg (not_not_intro hrc), if_pos hrc, hfull2, List.append_nil]
    · rw [if_pos hrc, if_neg hrc]
      have hnl : '\n' ∉ "[退出码]: ".data ++ intToStr returncode := by
        intro hmem
        rcases List.mem_append.mp hmem with h | h
        · exact (by decide : '\n' ∉ "[退出码]: ".data) h
        · exact intToStr_no_newline returncode h
      have hx : ps1 ++ command ++ "\n".data ++ stdout_text ++ "\n[错误输出]:\n".data ++
          stderr_text ++ "\n[退出码]: ".data ++ intToStr returncode =
          (ps1 ++ command ++ "\n".data ++ stdout_text ++ "\n[错误输出]:\n".data ++
            stderr_text) ++
            '\n' :: ("[退出码]: ".data ++ intToStr returncode) := by
        rw [List.append_assoc]
        rfl
      rw [hx, splitNL_append_newline, splitNL_no_newline hnl, hfull2]

/-- Witness for C6: both ordering equations at a concrete execution with
one stdout line and one stderr line, the helper one at exit code zero
and at exit code three (where the status line appears last). -/
theorem stdout_precedes_stderr_witness :
    (splitNL (combineOutput "ls /x".data "a.txt\n".data "warning\n".data) =
      splitNL (PROMPT ++ "ls /x".data) ++ splitNL (pyRstrip "a.txt\n".data) ++
        splitNL (pyRstrip "warning\n".data)) ∧
    (splitNL (helperFullOutput "$ ".data "ls /x".data "a.txt\n".data "warning\n".data 0) =
      splitNL ("$ ".data ++ "ls /x".data) ++ splitNL "a.txt\n".data ++
        ["[错误输出]:".data] ++ splitNL "warning\n".data ++
        (if (0 : Int) = 0 then [] else ["[退出码]: ".data ++ intToStr 0])) ∧
    (splitNL (helperFullOutput "$ ".data "ls /x".data "a.txt\n".data "warning\n".data 3) =
      splitNL ("$ ".data ++ "ls /x".data) ++ splitNL "a.txt\n".data ++
        ["[错误输出]:".data] ++ splitNL "warning\n".data ++
        (if (3 : Int) = 0 then [] else ["[退出码]: ".data ++ intToStr 3])) :=
  ⟨stdout_precedes_stderr.1 "ls /x".data "a.txt\n".data "warning\n".data
      (by decide) (by decide),
   stdout_precedes_stderr.2 "$ ".data "ls /x".data "a.txt\n".data "warning\n".data 0
      (by decide) (by decide),
   stdout_precedes_stderr.2 "$ ".data "ls /x".data "a.txt\n".data "warning\n".data 3
      (by decide) (by decide)⟩

end SecRun
